import Mathlib

/-!
Shallow embedding of the browser dashboard script `main.js` of the
Real-Time-Stock-Analysis-Pipeline-with-Data-Fusion repository, with proofs
about it.  JavaScript numbers are modelled as rationals (`ℚ`), absent values
(`null` / `undefined`) as `Option`, and a thrown exception as `Except.error`.
-/

attribute [local semireducible] Rat.add Rat.mul Rat.inv Rat.sub Rat.ofScientific

/-- A point of the price series: `{timestamp, open, high, low, close}`.
The timestamp is an abstract instant (an integer epoch value); `new Date`
applied to it is modelled as the identity. -/
structure PricePoint where
  timestamp : Int
  «open» : ℚ
  high : ℚ
  low : ℚ
  close : ℚ
deriving DecidableEq

/-- A backend indicator point `{sma}`; the sma value may be null. -/
structure IndicatorPoint where
  sma : Option ℚ
deriving DecidableEq

/-- The loop of `computeSMA` (main.js lines 95-108) after
`closes = priceSeries.map(p => p.close)` has been extracted: for each index
`i` it pushes `null` while `i < period - 1` and otherwise the mean
`closes.slice(i - period + 1, i + 1).reduce((a, b) => a + b) / period`.
Nat subtraction agrees with the JS index arithmetic for `period ≥ 1`, the
only range the spec defines (`period ≤ 0` is declared undefined behavior). -/
def smaOfCloses (closes : List ℚ) (period : Nat) : List (Option ℚ) :=
  (List.range closes.length).map fun i =>
    if i < period - 1 then
      none
    else
      some (((closes.drop (i + 1 - period)).take period).sum / (period : ℚ))

/-- `computeSMA(priceSeries, period)` from `main.js`; the source gives
`period` the default value 20, which the single caller also passes. -/
def computeSMA (priceSeries : List PricePoint) (period : Nat) : List (Option ℚ) :=
  smaOfCloses (priceSeries.map (·.close)) period

/-- The `smaValues` selection inside `renderChart` (main.js lines 124-127):
`indicators && indicators.length === priceSeries.length ? indicators.map(i => i.sma) : computeSMA(priceSeries, 20)`.
A missing `indicators` argument is `none`; an array, even an empty one, is
truthy in JavaScript, so a present array takes the length test. -/
def smaValues (priceSeries : List PricePoint) (indicators : Option (List IndicatorPoint)) :
    List (Option ℚ) :=
  match indicators with
  | some ind =>
      if ind.length = priceSeries.length then ind.map (·.sma)
      else computeSMA priceSeries 20
  | none => computeSMA priceSeries 20

/-- A candle datum `{x, o, h, l, c}` built by `renderChart`. -/
structure Candle where
  x : Int
  o : ℚ
  h : ℚ
  l : ℚ
  c : ℚ
deriving DecidableEq

/-- An SMA overlay datum `{x, y}`; `y` is null when the SMA is absent. -/
structure SmaPoint where
  x : Int
  y : Option ℚ
deriving DecidableEq

/-- The two datasets `renderChart` hands to the Chart constructor. -/
structure ChartData where
  candles : List Candle
  smaData : List SmaPoint
deriving DecidableEq

/-- The pure data-assembly part of `renderChart` (main.js lines 116-132): the
`candles` array and the `smaData` array.  `smaValues[i]` is JS indexing,
modelled by `List.getD` with default `none` (an out-of-range read yields
`undefined`, i.e. an absent value). -/
def buildChartData (priceSeries : List PricePoint)
    (indicators : Option (List IndicatorPoint)) : ChartData :=
  let candles := priceSeries.map fun c =>
    { x := c.timestamp, o := c.«open», h := c.high, l := c.low, c := c.close }
  let sv := smaValues priceSeries indicators
  let smaData := priceSeries.enum.map fun p =>
    { x := p.2.timestamp, y := sv.getD p.1 none }
  { candles := candles, smaData := smaData }

/-- State of the chart surface and of the global `chart` variable
(`let chart = null`, main.js line 2).  Chart instances are identified by
creation order; `attached` lists the instances currently attached to the
surface. -/
structure ChartState where
  attached : List Nat
  chart : Option Nat
  nextId : Nat
deriving DecidableEq

/-- One `renderChart` call as it affects the chart-instance state
(main.js lines 134-136): `if (chart) chart.destroy();` detaches the previous
instance when present, then `chart = new Chart(ctx, ...)` attaches a fresh
one and stores it. -/
def renderChartStep (s : ChartState) : ChartState :=
  let afterDestroy :=
    match s.chart with
    | some c => s.attached.erase c
    | none => s.attached
  { attached := afterDestroy ++ [s.nextId], chart := some s.nextId, nextId := s.nextId + 1 }

/-- The initial page state: `let chart = null`, nothing attached. -/
def initChartState : ChartState := { attached := [], chart := none, nextId := 0 }

/-- The chart state after `n` successive `renderChart` invocations. -/
def renderSeq : Nat → ChartState
  | 0 => initChartState
  | n + 1 => renderChartStep (renderSeq n)

/-- An HTTP response as seen through the fetch API: a status code and the
already-parsed JSON body.  `resp.ok` is true exactly for statuses 200-299. -/
structure HttpResponse (α : Type) where
  status : Nat
  body : α

/-- The fetch API `resp.ok` flag: status in the inclusive range 200-299. -/
def respOk {α : Type} (resp : HttpResponse α) : Bool :=
  decide (200 ≤ resp.status ∧ resp.status ≤ 299)

/-- `fetchTickers()` from `main.js` (lines 7-11), applied to the response the
transport produced: throws (`Except.error`) when `!resp.ok`, otherwise
resolves with the parsed JSON body. -/
def fetchTickers {α : Type} (resp : HttpResponse α) : Except String α :=
  if respOk resp then Except.ok resp.body else Except.error "Error fetching tickers"

/-- `fetchDashboardData(ticker)` from `main.js` (lines 16-20), applied to the
response for `/api/dashboard/{ticker}`. -/
def fetchDashboardData {α : Type} (ticker : String) (resp : HttpResponse α) :
    Except String α :=
  if respOk resp then Except.ok resp.body else Except.error "Error fetching dashboard data"

/-- The spec example series: closes 1,2,3,4,5 (other fields arbitrary). -/
def ps5ex : List PricePoint :=
  [⟨0, 0, 0, 0, 1⟩, ⟨1, 0, 0, 0, 2⟩, ⟨2, 0, 0, 0, 3⟩, ⟨3, 0, 0, 0, 4⟩, ⟨4, 0, 0, 0, 5⟩]

/-- A backend indicator list of length 5, used as a concrete instance. -/
def indsEx : List IndicatorPoint :=
  [⟨none⟩, ⟨none⟩, ⟨some 2⟩, ⟨some 3⟩, ⟨some 4⟩]

/-- Decimal digits of a natural number, most significant first, with explicit
fuel (32 digits suffice for every value reached in this development); mirrors
the digit generation of `Number.prototype.toString`. -/
def natDigitsAux : Nat → Nat → List Char
  | 0, _ => []
  | fuel + 1, n =>
      if n < 10 then [Nat.digitChar n]
      else natDigitsAux fuel (n / 10) ++ [Nat.digitChar (n % 10)]

/-- Decimal rendering of a natural number. -/
def natDecimalRepr (n : Nat) : String := String.mk (natDigitsAux 32 n)

/-- Insert a comma after every three characters of a reversed digit list; the
en-US thousands grouping of `toLocaleString`, seen from the right. -/
def groupRev : List Char → List Char
  | a :: b :: c :: d :: rest => a :: b :: c :: ',' :: groupRev (d :: rest)
  | l => l

/-- en-US thousands grouping of a digit string. -/
def groupDigits (s : String) : String := String.mk ((groupRev s.data.reverse).reverse)

/-- Floor of a nonnegative rational, as a natural number. -/
def ratFloorNat (q : ℚ) : Nat := q.num.toNat / q.den

/-- A natural number below 100 rendered with exactly two digits. -/
def pad2 (n : Nat) : String :=
  if n < 10 then "0" ++ natDecimalRepr n else natDecimalRepr n

/-- A natural number below 1000 rendered with exactly three digits. -/
def pad3 (n : Nat) : String :=
  if n < 10 then "00" ++ natDecimalRepr n
  else if n < 100 then "0" ++ natDecimalRepr n
  else natDecimalRepr n

/-- Drop the leading run of zero characters (used on a reversed digit list to
strip trailing zeros of a fraction part). -/
def stripZerosRev : List Char → List Char
  | '0' :: rest => stripZerosRev rest
  | l => l

/-- `Number.prototype.toFixed(2)`: render the integer closest to `x * 100`
(ties to the larger) with exactly two decimals; ECMA-262 emits the sign first
and proceeds with the negated value for negative `x`. -/
def toFixed2 (x : ℚ) : String :=
  let sign := if x < 0 then "-" else ""
  let a := if x < 0 then -x else x
  let m := ratFloorNat (a * 100 + 1 / 2)
  sign ++ natDecimalRepr (m / 100) ++ "." ++ pad2 (m % 100)

/-- `Number.prototype.toLocaleString("en-US")` under the Intl defaults: at
most three fraction digits, rounded half away from zero, and thousands
separators in the integer part. -/
def toLocaleStringEnUS (x : ℚ) : String :=
  let a := if x < 0 then -x else x
  let scaled := ratFloorNat (a * 1000 + 1 / 2)
  let ip := scaled / 1000
  let fp := scaled % 1000
  let fracStr := String.mk ((stripZerosRev (pad3 fp).data.reverse).reverse)
  let body := groupDigits (natDecimalRepr ip) ++ (if fracStr = "" then "" else "." ++ fracStr)
  (if x < 0 then "-" else "") ++ body

/-- `formatMarketCap(x)` from `main.js` (lines 29-36).  A `null`/`undefined`
input and a NaN input are both modelled by `none` (neither denotes a rational
value); any other JS number is the rational `n`. -/
def formatMarketCap (x : Option ℚ) : String :=
  match x with
  | none => "N/A"
  | some n =>
      if 1000000000000 ≤ n then toFixed2 (n / 1000000000000) ++ "T"
      else if 1000000000 ≤ n then toFixed2 (n / 1000000000) ++ "B"
      else if 1000000 ≤ n then toFixed2 (n / 1000000) ++ "M"
      else toLocaleStringEnUS n

/-- Inputs to `formatTimestamp`: `null`/`undefined`, or a JSON string. -/
inductive TimestampInput where
  | absent
  | str (s : String)
deriving DecidableEq

/-- `new Date(ts).toLocaleString()` for a string `ts`: `Date` construction
never throws on a string; when the host date parser fails the resulting Date
is invalid and its `toLocaleString` is the string "Invalid Date" (ECMA-402).
`parse` and `locFmt` abstract the host date parser and locale renderer. -/
def dateToLocaleString (parse : String → Option Int) (locFmt : Int → String)
    (s : String) : String :=
  match parse s with
  | some t => locFmt t
  | none => "Invalid Date"

/-- `formatTimestamp(ts)` from `main.js` (lines 37-44): "N/A" on falsy input
(`null`, `undefined`, the empty string), otherwise
`new Date(ts).toLocaleString()`.  The catch branch (`return ts`) is
unreachable for these inputs, since neither `Date` construction nor
`toLocaleString` throws on a string. -/
def formatTimestamp (parse : String → Option Int) (locFmt : Int → String)
    (ts : TimestampInput) : String :=
  match ts with
  | .absent => "N/A"
  | .str s => if s = "" then "N/A" else dateToLocaleString parse locFmt s

/-- Observable outcome of the DOMContentLoaded handler once `fetchTickers`
has resolved: the option values appended to the `ticker-select` element
(after `select.innerHTML = ""` cleared it), the visible option texts, and
the ticker values for which `loadTicker` issues a dashboard fetch. -/
structure InitOutcome where
  selectOptions : List String
  displayedTexts : List String
  dashboardRequests : List String
deriving DecidableEq

/-- The value of a select element: the value of its first option, or the
empty string when it has no options. -/
def selectValue (options : List String) : String := options.headD ""

/-- The DOMContentLoaded handler of `main.js` (lines 189-211) after
`fetchTickers` resolves with `{tickers}`: clear the select, append one option
per ticker (value and text both the ticker symbol), then unconditionally
`await loadTicker(select.value)`, which issues
`fetchDashboardData(select.value)`. -/
def initAfterTickers (tickers : List String) : InitOutcome :=
  { selectOptions := tickers
    displayedTexts := tickers
    dashboardRequests := [selectValue tickers] }

/-- A slice of a list, elementwise: when the slice lies inside the list,
entry `j` of `(l.drop a).take b` is the list entry at position `a + j`. -/
theorem take_drop_eq_range_map (l : List ℚ) (a b : Nat) (hab : a + b ≤ l.length) :
    (l.drop a).take b = (List.range b).map fun j => l.getD (a + j) 0 := by
  apply List.ext_getElem
  · simp only [List.length_take, List.length_drop, List.length_map, List.length_range]
    omega
  · intro n h₁ h₂
    have hn : a + n < l.length := by
      simp only [List.length_take, List.length_drop] at h₁
      omega
    rw [List.getElem_take, List.getElem_drop]
    simp only [List.getElem_map, List.getElem_range]
    exact (List.getD_eq_getElem l 0 hn).symm

/-- C1: for every price series and period `P ≥ 1`, `computeSMA` returns one
entry per input entry; every entry before index `P - 1` is null, and entry
`i ≥ P - 1` is the arithmetic mean of the `P` closes ending at index `i`;
in particular closes 1,2,3,4,5 with period 3 give [null, null, 2, 3, 4], and
the empty price series yields the empty output. -/
theorem computeSMA_window_spec (ps : List PricePoint) (P : Nat) (hP : 1 ≤ P) :
    (computeSMA ps P).length = ps.length ∧
    (∀ i : Nat, i < ps.length → i < P - 1 → (computeSMA ps P)[i]? = some none) ∧
    (∀ i : Nat, i < ps.length → P - 1 ≤ i →
      (computeSMA ps P)[i]? =
        some (some (((List.range P).map fun j =>
          (ps.map PricePoint.close).getD (i + 1 - P + j) 0).sum / (P : ℚ)))) ∧
    computeSMA ps5ex 3 = [none, none, some 2, some 3, some 4] ∧
    computeSMA ([] : List PricePoint) P = [] := by
  refine ⟨?_, ?_, ?_, by decide, rfl⟩
  · simp [computeSMA, smaOfCloses]
  · intro i hi hiP
    have hi' : i < (ps.map PricePoint.close).length := by simpa using hi
    simp only [computeSMA, smaOfCloses]
    rw [List.getElem?_map, List.getElem?_range hi']
    simp [hiP]
  · intro i hi hiP
    have hi' : i < (ps.map PricePoint.close).length := by simpa using hi
    have hab : (i + 1 - P) + P ≤ (ps.map PricePoint.close).length := by
      simp only [List.length_map]
      omega
    simp only [computeSMA, smaOfCloses]
    rw [List.getElem?_map, List.getElem?_range hi']
    simp only [Option.map_some']
    rw [if_neg (by omega), take_drop_eq_range_map _ _ _ hab]

/-- Witness for C1 at the example series and period 3. -/
theorem computeSMA_window_spec_witness :
    (computeSMA ps5ex 3).length = ps5ex.length ∧
    (computeSMA ps5ex 3)[0]? = some none ∧
    (computeSMA ps5ex 3)[2]? = some (some 2) :=
  ⟨(computeSMA_window_spec ps5ex 3 (by decide)).1,
   (computeSMA_window_spec ps5ex 3 (by decide)).2.1 0 (by decide) (by decide),
   by
    have h := (computeSMA_window_spec ps5ex 3 (by decide)).2.2.1 2 (by decide) (by decide)
    rw [h]
    decide⟩

/-- Whatever branch is taken, the selected SMA sequence has one entry per
price point. -/
theorem smaValues_length (ps : List PricePoint) (io : Option (List IndicatorPoint)) :
    (smaValues ps io).length = ps.length := by
  rcases io with _ | ind
  · simp [smaValues, computeSMA, smaOfCloses]
  · by_cases h : ind.length = ps.length
    · simp [smaValues, h]
    · simp [smaValues, h, computeSMA, smaOfCloses]

/-- The overlay dataset built by `renderChart` carries exactly the selected
SMA values, index-aligned with the price series. -/
theorem buildChartData_smaData (ps : List PricePoint) (io : Option (List IndicatorPoint)) :
    (buildChartData ps io).smaData.map SmaPoint.y = smaValues ps io := by
  apply List.ext_getElem
  · simp [buildChartData, smaValues_length, List.enum_length]
  · intro n h₁ h₂
    have hn : n < (smaValues ps io).length := h₂
    have hen : n < ps.enum.length := by
      rw [List.enum_length]
      exact (smaValues_length ps io) ▸ hn
    simp only [buildChartData, List.getElem_map, List.getElem_enum]
    exact List.getD_eq_getElem _ none hn

/-- C2: `renderChart` takes the backend indicators as the SMA overlay exactly
when they are present with the same length as the price series; in every
other case (absent indicators, or any length mismatch) it discards them and
uses `computeSMA(priceSeries, 20)` wholesale; and the overlay dataset carries
exactly the selected values. -/
theorem smaValues_selection (ps : List PricePoint) (ind : List IndicatorPoint) :
    (ind.length = ps.length → smaValues ps (some ind) = ind.map IndicatorPoint.sma) ∧
    (ind.length ≠ ps.length → smaValues ps (some ind) = computeSMA ps 20) ∧
    smaValues ps none = computeSMA ps 20 ∧
    (∀ io : Option (List IndicatorPoint),
      (buildChartData ps io).smaData.map SmaPoint.y = smaValues ps io) := by
  refine ⟨fun h => by simp [smaValues, h], fun h => by simp [smaValues, h],
    by simp [smaValues], fun io => buildChartData_smaData ps io⟩

/-- Witness for C2: matching lengths take the backend values; an empty
indicator list against a nonempty series falls back to `computeSMA`. -/
theorem smaValues_selection_witness :
    smaValues ps5ex (some indsEx) = indsEx.map IndicatorPoint.sma ∧
    smaValues ps5ex (some []) = computeSMA ps5ex 20 :=
  ⟨(smaValues_selection ps5ex indsEx).1 (by decide),
   (smaValues_selection ps5ex []).2.1 (by decide)⟩

/-- C9: `computeSMA` depends only on the close fields: two price series whose
close sequences agree elementwise produce identical outputs for every
period. -/
theorem computeSMA_close_only (P : Nat) (ps₁ ps₂ : List PricePoint)
    (h : ps₁.map PricePoint.close = ps₂.map PricePoint.close) :
    computeSMA ps₁ P = computeSMA ps₂ P :=
  congrArg (fun l => smaOfCloses l P) h

/-- Witness for C9: two series with different timestamps, opens, highs and
lows but the same closes give the same SMA. -/
theorem computeSMA_close_only_witness :
    computeSMA [⟨0, 9, 9, 9, 1⟩, ⟨5, 8, 8, 8, 2⟩] 2 =
      computeSMA [⟨7, 1, 2, 3, 1⟩, ⟨9, 4, 5, 6, 2⟩] 2 :=
  computeSMA_close_only 2 _ _ (by decide)

/-- Invariant of the render loop: after `n + 1` calls the surface holds
exactly the most recently created instance. -/
theorem renderSeq_invariant (n : Nat) :
    (renderSeq (n + 1)).attached = [n] ∧ (renderSeq (n + 1)).chart = some n ∧
    (renderSeq (n + 1)).nextId = n + 1 := by
  induction n with
  | zero => decide
  | succ n ih =>
      obtain ⟨ha, hc, hid⟩ := ih
      have heta : renderSeq (n + 1) =
          ⟨(renderSeq (n + 1)).attached, (renderSeq (n + 1)).chart,
            (renderSeq (n + 1)).nextId⟩ := rfl
      have hs : renderSeq (n + 1) = ⟨[n], some n, n + 1⟩ := by
        rw [heta, ha, hc, hid]
      refine ⟨?_, ?_, ?_⟩
      · show (renderChartStep (renderSeq (n + 1))).attached = [n + 1]
        rw [hs]
        show ([n].erase n) ++ [n + 1] = [n + 1]
        rw [List.erase_cons_head]
        rfl
      · show (renderChartStep (renderSeq (n + 1))).chart = some (n + 1)
        rw [hs]
        rfl
      · show (renderChartStep (renderSeq (n + 1))).nextId = n + 1 + 1
        rw [hs]
        rfl

/-- C6: after any positive number of successive `renderChart` invocations
exactly one chart instance is attached to the surface (it is the most
recently created one), and before the first invocation none is. -/
theorem single_chart_invariant (n : Nat) (hn : 1 ≤ n) :
    (renderSeq n).attached.length = 1 ∧
    (renderSeq n).attached = [(renderSeq n).nextId - 1] ∧
    (renderSeq 0).attached = [] := by
  obtain ⟨m, rfl⟩ : ∃ m, n = m + 1 := ⟨n - 1, by omega⟩
  obtain ⟨ha, hc, hid⟩ := renderSeq_invariant m
  refine ⟨by rw [ha]; rfl, by rw [ha, hid]; simp, rfl⟩

/-- Witness for C6 after two identical renders. -/
theorem single_chart_invariant_witness :
    1 ≤ 2 ∧ (renderSeq 2).attached.length = 1 :=
  ⟨by decide, (single_chart_invariant 2 (by decide)).1⟩

/-- C3 counterexample: when `fetchTickers` resolves with an empty ticker
list, the handler still issues a dashboard fetch (for the empty select
value), and no option or placeholder text is created, so the text
"No tickers available" is never shown. -/
theorem empty_tickers_claim_false :
    (initAfterTickers []).dashboardRequests ≠ [] ∧
    "No tickers available" ∉ (initAfterTickers []).displayedTexts := by
  decide

/-- C3 amended: with an empty ticker list the select is cleared to no options
and no placeholder text, and a dashboard fetch is still attempted, for the
empty-string select value. -/
theorem empty_tickers_behavior :
    initAfterTickers [] = ⟨[], [], [""]⟩ ∧ selectValue [] = "" := by
  decide

/-- C8: an empty price series renders an empty chart rather than failing:
both datasets are empty, whether the indicators argument is absent, empty,
or anything else. -/
theorem renderChart_empty (io : Option (List IndicatorPoint)) :
    buildChartData [] none = ⟨[], []⟩ ∧
    buildChartData [] (some []) = ⟨[], []⟩ ∧
    (buildChartData [] io).candles = [] ∧
    (buildChartData [] io).smaData = [] := by
  refine ⟨rfl, rfl, rfl, rfl⟩

/-- C4: at an unparsable timestamp string, `formatTimestamp` returns
"Invalid Date" (the `toLocaleString` of an invalid `Date`), not the original
input: `new Date` does not throw on an unparsable string, so the catch branch
that would return the input never runs.  The falsy cases do return "N/A" as
claimed. -/
theorem formatTimestamp_parse_failure :
    ∀ locFmt : Int → String,
      formatTimestamp (fun _ => none) locFmt (TimestampInput.str "notadate") = "Invalid Date" ∧
      formatTimestamp (fun _ => none) locFmt (TimestampInput.str "notadate") ≠ "notadate" ∧
      formatTimestamp (fun _ => none) locFmt TimestampInput.absent = "N/A" ∧
      formatTimestamp (fun _ => none) locFmt (TimestampInput.str "") = "N/A" := by
  intro locFmt
  have h1 : formatTimestamp (fun _ => none) locFmt (TimestampInput.str "notadate") =
      "Invalid Date" := rfl
  exact ⟨h1, by rw [h1]; decide, rfl, rfl⟩

/-- C5: the `formatMarketCap` example values, including the boundary values
exactly at the thresholds, which take the larger suffix because the checks
use greater-or-equal. -/
theorem formatMarketCap_examples :
    formatMarketCap none = "N/A" ∧
    formatMarketCap (some 1000000) = "1.00M" ∧
    formatMarketCap (some 1500000000) = "1.50B" ∧
    formatMarketCap (some 999999) = "999,999" ∧
    formatMarketCap (some 1000000000) = "1.00B" ∧
    formatMarketCap (some 1000000000000) = "1.00T" := by
  refine ⟨rfl, ?_, ?_, ?_, ?_, ?_⟩ <;> decide

/-- C7: both fetch helpers fail exactly when the HTTP status is outside
200-299, and on a success status they resolve with the parsed body. -/
theorem fetch_status_spec {α β : Type} (ticker : String)
    (r : HttpResponse α) (rd : HttpResponse β) :
    (fetchTickers r = Except.ok r.body ↔ 200 ≤ r.status ∧ r.status ≤ 299) ∧
    ((∃ e, fetchTickers r = Except.error e) ↔ ¬(200 ≤ r.status ∧ r.status ≤ 299)) ∧
    (fetchDashboardData ticker rd = Except.ok rd.body ↔
      200 ≤ rd.status ∧ rd.status ≤ 299) ∧
    ((∃ e, fetchDashboardData ticker rd = Except.error e) ↔
      ¬(200 ≤ rd.status ∧ rd.status ≤ 299)) := by
  by_cases h : 200 ≤ r.status ∧ r.status ≤ 299 <;>
    by_cases h2 : 200 ≤ rd.status ∧ rd.status ≤ 299 <;>
      simp [fetchTickers, fetchDashboardData, respOk, h, h2]

/-- Witness for C7: a 200 response resolves with its body, a 404 response
fails. -/
theorem fetch_status_spec_witness :
    fetchTickers (⟨200, ["AAPL"]⟩ : HttpResponse (List String)) = Except.ok ["AAPL"] ∧
    (∃ e, fetchTickers (⟨404, ["AAPL"]⟩ : HttpResponse (List String)) = Except.error e) :=
  ⟨(fetch_status_spec "AAPL" (⟨200, ["AAPL"]⟩ : HttpResponse (List String))
      (⟨0, 0⟩ : HttpResponse Nat)).1.mpr (by decide),
   (fetch_status_spec "AAPL" (⟨404, ["AAPL"]⟩ : HttpResponse (List String))
      (⟨0, 0⟩ : HttpResponse Nat)).2.1.mpr (by decide)⟩

/-- C10: a negative input fails all three greater-or-equal threshold checks,
whatever its magnitude, so `formatMarketCap` never appends a T, B or M
suffix to it and always takes the `toLocaleString("en-US")` path; at
-2e12 that gives the grouped integer string. -/
theorem formatMarketCap_negative (x : ℚ) (hx : x < 0) :
    (¬ 1000000000000 ≤ x ∧ ¬ 1000000000 ≤ x ∧ ¬ 1000000 ≤ x) ∧
    formatMarketCap (some x) = toLocaleStringEnUS x ∧
    formatMarketCap (some (-2000000000000)) = "-2,000,000,000,000" := by
  have h1 : ¬ (1000000000000 : ℚ) ≤ x := by linarith
  have h2 : ¬ (1000000000 : ℚ) ≤ x := by linarith
  have h3 : ¬ (1000000 : ℚ) ≤ x := by linarith
  exact ⟨⟨h1, h2, h3⟩, by simp [formatMarketCap, h1, h2, h3], by decide⟩

/-- Witness for C10 at -42. -/
theorem formatMarketCap_negative_witness :
    (-42 : ℚ) < 0 ∧ formatMarketCap (some (-42)) = toLocaleStringEnUS (-42) :=
  ⟨by norm_num, (formatMarketCap_negative (-42) (by norm_num)).2.1⟩
